import Mathlib

/-!
Shallow embedding of the Mrmerch product-catalog core: the paginated query
engine and catalog service (src/lib/services/productService.ts), the
GET /api/products route (src/app/api/products/route.ts), the client state
slice (src/lib/redux/slices/productsSlice.ts), the index-initialization
routines (src/lib/mongodb.ts, productService.createIndexes), and the
client-side product-form submission and variation editing helpers
(src/components/dashboard/common/ProductAnglesSelector.tsx).

JavaScript numbers are modelled as Int or Nat (all quantities involved are
integers in range), dates as Nat timestamps, `undefined`-able fields as
Option, and promise rejection (thrown errors) as Except.
-/

namespace Mrmerch

/-! ## A model of untyped JSON/JS values, for the redux layer -/

/-- Untyped JSON value, as produced by response.json() and held in redux
state at runtime (the TypeScript types are not enforced at runtime). -/
inductive Json where
  | jnull
  | jbool (b : Bool)
  | jnum (n : Int)
  | jstr (s : String)
  | jarr (elems : List Json)
  | jobj (fields : List (String × Json))
  deriving Repr

/-- JavaScript truthiness of a JSON value: null, false, 0 and the empty
string are falsy; arrays and objects are always truthy. -/
def truthy : Json → Bool
  | .jnull => false
  | .jbool b => b
  | .jnum n => n != 0
  | .jstr s => s != ""
  | .jarr _ => true
  | .jobj _ => true

/-- Array.isArray. -/
def isArrayJson : Json → Bool
  | .jarr _ => true
  | _ => false

/-- An ASCII whitespace character, as stripped by String.prototype.trim. -/
def isWhitespaceChar (c : Char) : Bool :=
  c == ' ' || c == '\t' || c == '\n' || c == '\r'

/-- JavaScript's s.trim(): strip whitespace from both ends. -/
def jsTrim (s : String) : String :=
  ⟨((s.data.dropWhile isWhitespaceChar).reverse.dropWhile isWhitespaceChar).reverse⟩

/-- Property access `v.key`: on an object it is the first field of that name
(or undefined, i.e. none); on null it throws a TypeError; on any other
value it is undefined. -/
def getProp (v : Json) (key : String) : Except Unit (Option Json) :=
  match v with
  | .jnull => .error ()
  | .jobj fields => .ok (((fields.find? (fun f => f.1 == key)).map (fun f => f.2)))
  | _ => .ok none

/-! ## Product data model (src/lib/models/Product.ts as used by productService.ts) -/

/-- Purchase-limit policy object carried verbatim on a product. -/
structure PurchaseLimit where
  enabled : Bool
  maxQuantityPerOrder : Int
  message : String
  deriving Repr, DecidableEq

/-- Color descriptor of a variation (color.name, color.hex_code, color.swatch_image). -/
structure ColorInfo where
  name : String
  hex_code : String
  swatch_image : Option String
  deriving Repr, DecidableEq

/-- One image attached to a variation (also the shape edited by the product
form). url and alt_text can be undefined at runtime (Yup marks them nullable). -/
structure VariationImage where
  id : String
  url : Option String
  alt_text : Option String
  angle : String
  is_primary : Bool
  deriving Repr, DecidableEq

/-- A purchasable variation of a product. -/
structure Variation where
  id : String
  color : ColorInfo
  price : Int
  inStock : Bool
  stockQuantity : Int
  images : List VariationImage
  deriving Repr, DecidableEq

/-- The caller-supplied product fields: Omit of ProductDocument without _id,
createdAt, updatedAt. Optional document fields are Option (undefined = none). -/
structure ProductInput where
  name : String
  price : Int
  image : Option String
  categoryId : String
  subcategoryIds : Option (List String)
  description : Option String
  inStock : Option Bool
  hasVariations : Bool
  variations : Option (List Variation)
  eligibleForCoupons : Option Bool
  type : Option String
  baseColor : Option String
  angles : Option (List String)
  colors : Option (List ColorInfo)
  purchaseLimit : Option PurchaseLimit
  frontImage : Option String
  backImage : Option String
  leftImage : Option String
  rightImage : Option String
  materialImage : Option String
  frontAltText : Option String
  backAltText : Option String
  leftAltText : Option String
  rightAltText : Option String
  materialAltText : Option String
  deriving Repr, DecidableEq

/-- A stored document in the products collection: the input fields plus the
_id assigned by the store and the two timestamps set by createProduct. -/
structure ProductDocument extends ProductInput where
  oid : String
  createdAt : Nat
  updatedAt : Nat
  deriving Repr, DecidableEq

/-- The normalized external Product shape. createdAt and updatedAt are Option
because the object returned by createProduct carries no such keys (its spread
of productData omits them), while getProductById fills them from the document. -/
structure Product extends ProductInput where
  id : String
  createdAt : Option Nat
  updatedAt : Option Nat
  deriving Repr, DecidableEq

/-! ## Catalog Service: create / getById (src/lib/services/productService.ts) -/

/-- One hexadecimal digit, as accepted inside an ObjectId string. -/
def isHexDigit (c : Char) : Bool :=
  c.isDigit || ('a' ≤ c && c ≤ 'f') || ('A' ≤ c && c ≤ 'F')

/-- Modelled driver behavior (mongodb's ObjectId constructor): a string id is
accepted exactly when it is a 24-character hexadecimal string; any other
string makes `new ObjectId(id)` throw a BSONError. -/
def isValidObjectId (id : String) : Bool :=
  id.length == 24 && id.data.all isHexDigit

/-- Errors surfaced by the service layer as promise rejections. -/
inductive DbError where
  | invalidObjectId
  deriving Repr, DecidableEq

instance {e a : Type} [DecidableEq e] [DecidableEq a] : DecidableEq (Except e a) := fun x y =>
  match x, y with
  | .ok u, .ok v =>
    if h : u = v then isTrue (by rw [h]) else isFalse (fun hc => h (Except.ok.inj hc))
  | .error u, .error v =>
    if h : u = v then isTrue (by rw [h]) else isFalse (fun hc => h (Except.error.inj hc))
  | .ok _, .error _ => isFalse (fun hc => Except.noConfusion hc)
  | .error _, .ok _ => isFalse (fun hc => Except.noConfusion hc)

/-- createProduct: inserts `{...productData, createdAt: now, updatedAt: now}`
into the collection (the store assigns insertedId) and returns the object
`{id: insertedId.toString(), ...productData, ...explicit fields}` — note the
returned object spreads productData only, so it carries no createdAt or
updatedAt keys (none). -/
def createProduct (store : List ProductDocument) (insertedId : String) (now : Nat)
    (productData : ProductInput) : List ProductDocument × Product :=
  let newProduct : ProductDocument :=
    { toProductInput := productData, oid := insertedId, createdAt := now, updatedAt := now }
  (store ++ [newProduct],
   { toProductInput := productData, id := insertedId, createdAt := none, updatedAt := none })

/-- Normalization applied by getProductById (and by the aggregation pipeline's
$addFields/$project): rename _id to a string id and list every external
field, so absent document fields surface as undefined (none), not omitted. -/
def normalizeDoc (doc : ProductDocument) : Product :=
  { toProductInput := doc.toProductInput, id := doc.oid,
    createdAt := some doc.createdAt, updatedAt := some doc.updatedAt }

/-- getProductById: `new ObjectId(id)` throws for an id that is not a valid
ObjectId string (modelled as an error result); otherwise findOne returns the
first document whose _id matches, or null, and the document is normalized. -/
def getProductById (store : List ProductDocument) (id : String) :
    Except DbError (Option Product) :=
  if isValidObjectId id then
    match store.find? (fun d => d.oid == id) with
    | some doc => .ok (some (normalizeDoc doc))
    | none => .ok none
  else
    .error .invalidObjectId

/-! ## Query Engine (productService.getProductsPaginated) -/

/-- Outcome of `await collection.indexExists('product_search_index')`:
either it resolves with a Bool or it throws. -/
inductive ProbeResult where
  | success (found : Bool)
  | failure
  deriving Repr, DecidableEq

/-- The match-conditions object built inside getProductsPaginated: at most a
categoryId equality, and either a $text search or a $or of two
case-insensitive regexes on name and description. -/
structure MatchConditions where
  categoryEq : Option String
  textSearch : Option String
  regexOr : Option String
  deriving Repr, DecidableEq

/-- Build matchConditions from the request (lines 148-173 of
productService.ts): categoryId is added when truthy and not 'all'; for a
search term that is nonempty after trim, a text-index probe that resolves
true selects $text, while a probe that resolves false or throws selects the
regex $or fallback. -/
def buildMatchConditions (search categoryId : String) (probe : ProbeResult) :
    MatchConditions :=
  let base : MatchConditions :=
    { categoryEq := if categoryId != "" && categoryId != "all" then some categoryId else none,
      textSearch := none, regexOr := none }
  if search != "" && jsTrim search != "" then
    match probe with
    | .success true => { base with textSearch := some search }
    | .success false => { base with regexOr := some search }
    | .failure => { base with regexOr := some search }
  else base

/-! Store-side matching semantics. The $regex condition with option 'i' is
modelled as case-insensitive substring containment, treating the search term
as literal text; the $text condition is modelled from the store's documented
behavior as case-insensitive word matching over the indexed fields
(name and description). -/

/-- The characters of a string, lowercased. -/
def lowerChars (s : String) : List Char :=
  s.data.map Char.toLower

/-- Does the second list start with the first one. -/
def beginsWith : List Char → List Char → Bool
  | [], _ => true
  | _ :: _, [] => false
  | a :: as, b :: bs => a == b && beginsWith as bs

/-- Does `pat` occur as a contiguous run inside `s`. -/
def occursIn (pat : List Char) : List Char → Bool
  | [] => pat.isEmpty
  | c :: s => beginsWith pat (c :: s) || occursIn pat s

/-- Case-insensitive substring match: the `$regex, $options: 'i'` condition
applied to a field, with the search term read as literal text. -/
def regexMatchCI (pat s : String) : Bool :=
  occursIn (lowerChars pat) (lowerChars s)

/-- Split a character list into its space-separated words. -/
def splitWords : List Char → List (List Char)
  | [] => [[]]
  | c :: cs =>
    if c == ' ' then [] :: splitWords cs
    else
      match splitWords cs with
      | [] => [[c]]
      | w :: ws => (c :: w) :: ws

/-- Modelled store behavior of a $text match of a single-word term against
one indexed field: the term equals one of the field's words, case-insensitively. -/
def textWordMatch (term s : String) : Bool :=
  (splitWords (lowerChars s)).contains (lowerChars term)

/-- Does a document satisfy the $text condition (search over the indexed
fields name and description). -/
def docTextMatch (term : String) (d : ProductDocument) : Bool :=
  textWordMatch term d.name ||
    (match d.description with
     | some ds => textWordMatch term ds
     | none => false)

/-- Does a document satisfy the $or of the two case-insensitive regexes on
name and description. -/
def docRegexOrMatch (term : String) (d : ProductDocument) : Bool :=
  regexMatchCI term d.name ||
    (match d.description with
     | some ds => regexMatchCI term ds
     | none => false)

/-- Does a document satisfy the whole matchConditions object ($match). -/
def docMatches (mc : MatchConditions) (d : ProductDocument) : Bool :=
  (match mc.categoryEq with
   | some c => d.categoryId == c
   | none => true) &&
  (match mc.textSearch with
   | some t => docTextMatch t d
   | none => true) &&
  (match mc.regexOr with
   | some t => docRegexOrMatch t d
   | none => true)

/-- Stable insertion into a list kept sorted by createdAt descending. -/
def insertByCreatedAtDesc (d : ProductDocument) :
    List ProductDocument → List ProductDocument
  | [] => [d]
  | x :: xs =>
    if x.createdAt < d.createdAt then d :: x :: xs
    else x :: insertByCreatedAtDesc d xs

/-- The `$sort: { createdAt: -1 }` stage: newest first, stable. -/
def sortByCreatedAtDesc (docs : List ProductDocument) : List ProductDocument :=
  docs.foldr insertByCreatedAtDesc []

/-- Math.ceil(a / b) for natural a and positive b, as computed over floats by
the source's `Math.ceil(total / limit)`. -/
def ceilOfDiv (a b : Nat) : Nat :=
  (a + b - 1) / b

/-- The pagination metadata block of a paginated result. -/
structure PaginationInfo where
  page : Nat
  limit : Nat
  total : Nat
  totalPages : Nat
  hasNext : Bool
  hasPrev : Bool
  deriving Repr, DecidableEq

/-- A paginated result { data, pagination }. -/
structure PaginatedResult where
  data : List Product
  pagination : PaginationInfo
  deriving Repr, DecidableEq

/-- getProductsPaginated: skip = (page-1)*limit; build matchConditions; the
count pipeline yields total = number of matched documents; the data pipeline
is $match, $sort createdAt desc, $skip, $limit, then the $addFields/$project
normalization; totalPages = Math.ceil(total/limit), hasNext = page <
totalPages, hasPrev = page > 1. -/
def getProductsPaginated (docs : List ProductDocument) (page limit : Nat)
    (search categoryId : String) (probe : ProbeResult) : PaginatedResult :=
  let skip := (page - 1) * limit
  let mc := buildMatchConditions search categoryId probe
  let matched := docs.filter (docMatches mc)
  let total := matched.length
  let pageData := (((sortByCreatedAtDesc matched).drop skip).take limit).map normalizeDoc
  let totalPages := ceilOfDiv total limit
  { data := pageData,
    pagination :=
      { page := page, limit := limit, total := total, totalPages := totalPages,
        hasNext := decide (page < totalPages), hasPrev := decide (page > 1) } }

/-! ## GET /api/products route (src/app/api/products/route.ts) -/

/-- A transport-level response: either a JSON payload with a status, or a
JSON error object with a status. -/
inductive ApiResponse where
  | success (result : PaginatedResult) (status : Nat)
  | jsonError (message : String) (status : Nat)
  deriving Repr, DecidableEq

/-- The GET handler after parameter parsing: parsed page and limit are
validated first, and an invalid pair is answered with the error response
before ProductService.getProductsPaginated is called. The Bool records
whether the store-backed service was invoked. -/
def getProductsRoute (page limit : Int) (search categoryId : String)
    (docs : List ProductDocument) (probe : ProbeResult) : ApiResponse × Bool :=
  if page < 1 || limit < 1 || limit > 1000 then
    (.jsonError "Invalid pagination parameters" 500, false)
  else
    (.success (getProductsPaginated docs page.toNat limit.toNat search categoryId probe) 200,
     true)

/-! ## Client Cache/State Layer (src/lib/redux/slices/productsSlice.ts) -/

/-- The products slice state. items and the cached pages are held untyped
(Json), as the reducers store whatever payload arrives at runtime. -/
structure ProductsState where
  items : Json
  loading : Bool
  error : Option String
  pagination : PaginationInfo
  searchTerm : String
  selectedCategory : String
  pageCache : List (Nat × Json)

/-- The slice's initialState. -/
def initialProductsState : ProductsState :=
  { items := .jarr [], loading := false, error := none,
    pagination :=
      { page := 1, limit := 10, total := 0, totalPages := 0,
        hasNext := false, hasPrev := false },
    searchTerm := "", selectedCategory := "all", pageCache := [] }

/-- The fetchProductsPaginated.rejected case: loading becomes false and the
error message is stored (action.error.message, or the fixed fallback text
when the action carries none); nothing else is touched. -/
def fetchProductsPaginatedRejected (s : ProductsState) (errMessage : Option String) :
    ProductsState :=
  { s with loading := false, error := some (errMessage.getD "Failed to fetch products") }

/-- Payload computation of the legacy fetchProducts thunk (lines 23-49): when
result.data is truthy and an array it is returned, otherwise the whole
result is returned as-is; property access on a null result throws. -/
def fetchProductsPayload (result : Json) : Except Unit Json := do
  let d ← getProp result "data"
  match d with
  | some dv => if truthy dv && isArrayJson dv then pure dv else pure result
  | none => pure result

/-- The fetchProducts.fulfilled case: loading becomes false and items is
replaced with the action payload, whatever its shape. -/
def fetchProductsFulfilled (s : ProductsState) (payload : Json) : ProductsState :=
  { s with loading := false, items := payload }

/-! ## Product form submission (ProductFormDialog.onSubmit) -/

/-- The formik values relevant to submission. The angle-image and alt-text
fields can be undefined at runtime (the submit handler itself guards for
undefined before normalizing them to ''). -/
structure FormValues where
  name : String
  description : Option String
  price : Int
  image : Option String
  categoryId : String
  hasVariations : Bool
  variations : List Variation
  eligibleForCoupons : Bool
  purchaseLimit : Option PurchaseLimit
  baseColor : String
  colorHex : String
  stockQuantity : Int
  angles : List String
  frontImage : Option String
  backImage : Option String
  leftImage : Option String
  rightImage : Option String
  materialImage : Option String
  frontAltText : Option String
  backAltText : Option String
  leftAltText : Option String
  rightAltText : Option String
  materialAltText : Option String
  deriving Repr, DecidableEq

/-- JavaScript truthiness of a possibly-undefined string. -/
def jsTruthyStr : Option String → Bool
  | none => false
  | some s => s != ""

/-- The image filter applied per variation on submit:
`img.url && img.url.trim() !== ''`. -/
def keepImage (img : VariationImage) : Bool :=
  match img.url with
  | none => false
  | some u => u != "" && jsTrim u != ""

/-- Cleaning of the variations array on submit: every image whose url is
missing, empty, or whitespace-only is removed. -/
def cleanVariations (vs : List Variation) : List Variation :=
  vs.map (fun v => { v with images := v.images.filter keepImage })

/-- The angle-image field of a form by angle name. -/
def angleField (v : FormValues) (a : String) : Option String :=
  if a == "front" then v.frontImage
  else if a == "back" then v.backImage
  else if a == "left" then v.leftImage
  else if a == "right" then v.rightImage
  else if a == "material" then v.materialImage
  else none

/-- The cleanedValues object built by onSubmit (lines 379-412): variations
are cleaned of url-less images; for the single-product shape the angles
array is rebuilt by pushing front, back, left, right, material in order for
each truthy angle-image field, and any undefined angle image or alt-text
field is then normalized to the empty string. -/
def submitCleanedValues (values : FormValues) : FormValues :=
  let cleaned := { values with variations := cleanVariations values.variations }
  if !cleaned.hasVariations then
    let angles :=
      (if jsTruthyStr cleaned.frontImage then ["front"] else []) ++
      (if jsTruthyStr cleaned.backImage then ["back"] else []) ++
      (if jsTruthyStr cleaned.leftImage then ["left"] else []) ++
      (if jsTruthyStr cleaned.rightImage then ["right"] else []) ++
      (if jsTruthyStr cleaned.materialImage then ["material"] else [])
    { cleaned with
      angles := angles,
      frontImage := some (cleaned.frontImage.getD ""),
      backImage := some (cleaned.backImage.getD ""),
      leftImage := some (cleaned.leftImage.getD ""),
      rightImage := some (cleaned.rightImage.getD ""),
      materialImage := some (cleaned.materialImage.getD ""),
      frontAltText := some (cleaned.frontAltText.getD ""),
      backAltText := some (cleaned.backAltText.getD ""),
      leftAltText := some (cleaned.leftAltText.getD ""),
      rightAltText := some (cleaned.rightAltText.getD ""),
      materialAltText := some (cleaned.materialAltText.getD "") }
  else cleaned

/-- addVariationImage (lines 627-665): an out-of-range variation index leaves
the variations unchanged; otherwise a fresh image with empty url and
alt-text is appended to a deep copy of the variation's images, with
is_primary set exactly when the images array was empty before the push. -/
def addVariationImage (variations : List Variation) (varIdx : Nat)
    (angle newId : String) : List Variation :=
  match variations[varIdx]? with
  | none => variations
  | some v =>
    variations.set varIdx
      { v with images := v.images ++
          [{ id := newId, url := some "", alt_text := some "", angle := angle,
             is_primary := v.images.length == 0 }] }

/-! ## Index initialization (productService.createIndexes, mongodb.initializeIndexes) -/

/-- ProductService.createIndexes: the four createIndex awaits run in
sequence inside one try/catch whose catch only logs, so the routine
resolves no matter how the individual calls end. -/
def createIndexes (o1 o2 o3 o4 : Except String Unit) : Except String Unit :=
  match (do
      let _ ← o1
      let _ ← o2
      let _ ← o3
      let _ ← o4 : Except String Unit) with
  | .ok _ => .ok ()
  | .error _ => .ok ()

/-- One branch of mongodb.initializeIndexes: each createIndex promise has its
own .catch that only logs, so each branch resolves. -/
def catchLogged (o : Except String Unit) : Except String Unit :=
  match o with
  | .ok _ => .ok ()
  | .error _ => .ok ()

/-- mongodb.initializeIndexes: obtaining the database can fail; the four
createIndex calls run under Promise.all with per-call .catch handlers, and
the whole body sits in a try/catch whose catch only logs. -/
def initializeIndexes (dbConn : Except String Unit)
    (o1 o2 o3 o4 : Except String Unit) : Except String Unit :=
  match dbConn with
  | .error _ => .ok ()
  | .ok _ =>
    match (do
        let _ ← catchLogged o1
        let _ ← catchLogged o2
        let _ ← catchLogged o3
        let _ ← catchLogged o4 : Except String Unit) with
    | .ok _ => .ok ()
    | .error _ => .ok ()

/-! ## Concrete sample data used to instantiate the theorems -/

/-- A valid 24-character hexadecimal ObjectId string. -/
def oid0 : String := "aaaaaaaaaaaaaaaaaaaaaaaa"

/-- The spec's concrete creation scenario: name Mug, price 10, category c1,
no variations, only the front angle image set. -/
def sampleInput : ProductInput :=
  { name := "Mug", price := 10, image := none, categoryId := "c1",
    subcategoryIds := none, description := none, inStock := none,
    hasVariations := false, variations := none, eligibleForCoupons := none,
    type := none, baseColor := none, angles := some ["front"], colors := none,
    purchaseLimit := none, frontImage := some "u1", backImage := none,
    leftImage := none, rightImage := none, materialImage := none,
    frontAltText := none, backAltText := none, leftAltText := none,
    rightAltText := none, materialAltText := none }

/-- A stored document with the given creation time, for pagination scenarios. -/
def sampleDoc (i : Nat) : ProductDocument :=
  { toProductInput := { sampleInput with frontImage := none, angles := none },
    oid := oid0, createdAt := i, updatedAt := i }

/-- A 25-document collection with distinct creation times. -/
def docs25 : List ProductDocument := (List.range 25).map sampleDoc

/-- The Mug form of the spec's concrete scenario: no variations, only the
front angle image set. -/
def mugForm : FormValues :=
  { name := "Mug", description := none, price := 10, image := none,
    categoryId := "c1", hasVariations := false, variations := [],
    eligibleForCoupons := false, purchaseLimit := none, baseColor := "",
    colorHex := "#000000", stockQuantity := 0, angles := [],
    frontImage := some "u1", backImage := none, leftImage := none,
    rightImage := none, materialImage := none, frontAltText := none,
    backAltText := none, leftAltText := none, rightAltText := none,
    materialAltText := none }

/-- A response object whose data property is present but not a list. -/
def malformedResp : Json := .jobj [("data", .jstr "oops")]

/-- A stored document whose description holds a word that the name lacks. -/
def searchDoc : ProductDocument :=
  { toProductInput := { sampleInput with name := "Mug", description := some "nice ceramic cup" },
    oid := oid0, createdAt := 0, updatedAt := 0 }

/-- A single empty variation, for the image-adding scenario. -/
def emptyVariation : Variation :=
  { id := "var_1", color := { name := "", hex_code := "#000000", swatch_image := none },
    price := 10, inStock := true, stockQuantity := 0, images := [] }

/-! ## Helper lemmas -/

theorem beginsWith_append_self (w r : List Char) : beginsWith w (w ++ r) = true := by
  induction w with
  | nil => rfl
  | cons a as ih => simp [beginsWith, ih]

theorem occursIn_of_beginsWith {w l : List Char} (h : beginsWith w l = true) :
    occursIn w l = true := by
  cases l with
  | nil =>
    cases w with
    | nil => rfl
    | cons a as => simp [beginsWith] at h
  | cons c cs => simp [occursIn, h]

theorem splitWords_ne_nil (l : List Char) : splitWords l ≠ [] := by
  cases l with
  | nil => simp [splitWords]
  | cons c cs =>
    simp only [splitWords]
    split
    · simp
    · split <;> simp

theorem splitWords_head_beginsWith (l w : List Char) (ws : List (List Char))
    (h : splitWords l = w :: ws) : beginsWith w l = true := by
  induction l generalizing w ws with
  | nil =>
    simp [splitWords] at h
    rw [h.1]
    rfl
  | cons c cs ih =>
    by_cases hc : c == ' '
    · simp [splitWords, hc] at h
      rw [h.1]
      rfl
    · rcases hcs : splitWords cs with _ | ⟨w', ws'⟩
      · exact absurd hcs (splitWords_ne_nil cs)
      · simp [splitWords, hc, hcs] at h
        rw [← h.1]
        simp [beginsWith, ih w' ws' hcs]

theorem occursIn_of_mem_splitWords (l w : List Char) (h : w ∈ splitWords l) :
    occursIn w l = true := by
  induction l generalizing w with
  | nil =>
    simp [splitWords] at h
    subst h
    rfl
  | cons c cs ih =>
    by_cases hc : c == ' '
    · simp [splitWords, hc] at h
      rcases h with h | h
      · subst h
        rfl
      · simp [occursIn, ih w h]
    · rcases hcs : splitWords cs with _ | ⟨w', ws'⟩
      · exact absurd hcs (splitWords_ne_nil cs)
      · simp [splitWords, hc, hcs] at h
        rcases h with h | h
        · subst h
          have hb : beginsWith w' cs = true := splitWords_head_beginsWith cs w' ws' hcs
          simp [occursIn, beginsWith, hb]
        · have hmem : w ∈ splitWords cs := by
            rw [hcs]; exact List.mem_cons_of_mem _ h
          simp [occursIn, ih w hmem]

theorem regexMatchCI_of_textWordMatch {term s : String}
    (h : textWordMatch term s = true) : regexMatchCI term s = true := by
  unfold textWordMatch at h
  unfold regexMatchCI
  exact occursIn_of_mem_splitWords _ _ (by simpa using h)

/-! ## Claim theorems -/

/-- C2: for every GET /api/products request whose parsed parameters satisfy
page < 1 or limit < 1 or limit > 1000, the handler answers with the error
response and never invokes the store-backed query. -/
theorem route_rejects_invalid_pagination (page limit : Int) (search categoryId : String)
    (docs : List ProductDocument) (probe : ProbeResult)
    (h : page < 1 ∨ limit < 1 ∨ limit > 1000) :
    getProductsRoute page limit search categoryId docs probe =
      (.jsonError "Invalid pagination parameters" 500, false) := by
  unfold getProductsRoute
  have hcond : (page < 1 ∨ limit < 1 ∨ limit > 1000) := h
  rcases hcond with h1 | h1 | h1 <;> simp [h1]

/-- Witness for C2 at the concrete invalid request page = 0, limit = 10. -/
theorem route_rejects_invalid_pagination_witness :
    ((0 : Int) < 1 ∨ (10 : Int) < 1 ∨ (10 : Int) > 1000) ∧
    getProductsRoute 0 10 "" "" [] ProbeResult.failure =
      (.jsonError "Invalid pagination parameters" 500, false) :=
  ⟨Or.inl (by decide),
   route_rejects_invalid_pagination 0 10 "" "" [] ProbeResult.failure (Or.inl (by decide))⟩

/-- C7: a rejected fetchProductsPaginated action sets loading to false and a
non-null error message, and leaves items, pagination, searchTerm,
selectedCategory and pageCache exactly as they were. -/
theorem fetchPaginatedRejected_frame (s : ProductsState) (msg : Option String) :
    (fetchProductsPaginatedRejected s msg).loading = false ∧
    (fetchProductsPaginatedRejected s msg).error ≠ none ∧
    (fetchProductsPaginatedRejected s msg).items = s.items ∧
    (fetchProductsPaginatedRejected s msg).pagination = s.pagination ∧
    (fetchProductsPaginatedRejected s msg).searchTerm = s.searchTerm ∧
    (fetchProductsPaginatedRejected s msg).selectedCategory = s.selectedCategory ∧
    (fetchProductsPaginatedRejected s msg).pageCache = s.pageCache := by
  simp [fetchProductsPaginatedRejected]

/-- C9: whatever the outcomes of the individual createIndex calls (the
duplicate-index rejection included), both index-initialization routines
complete without throwing, so a second run of index setup never fails. -/
theorem indexInitialization_never_fails (o1 o2 o3 o4 : Except String Unit)
    (dbConn p1 p2 p3 p4 : Except String Unit) :
    createIndexes o1 o2 o3 o4 = .ok () ∧
    initializeIndexes dbConn p1 p2 p3 p4 = .ok () := by
  constructor
  · unfold createIndexes
    cases o1 <;> cases o2 <;> cases o3 <;> cases o4 <;> rfl
  · unfold initializeIndexes catchLogged
    cases dbConn <;> [skip; (cases p1 <;> cases p2 <;> cases p3 <;> cases p4)] <;> rfl

/-- C10: adding an image to an existing variation appends a fresh image whose
is_primary flag is set exactly when the variation's image list was empty
before the add; a variation that already has images never gets a new
primary image. -/
theorem addVariationImage_primary_iff_empty (variations : List Variation)
    (varIdx : Nat) (angle newId : String) (v : Variation)
    (h : variations[varIdx]? = some v) :
    (addVariationImage variations varIdx angle newId)[varIdx]? =
      some { v with images := v.images ++
        [{ id := newId, url := some "", alt_text := some "", angle := angle,
           is_primary := v.images.length == 0 }] } ∧
    ((v.images.length == 0) = true ↔ v.images = []) := by
  have hlt : varIdx < variations.length := by
    rcases List.getElem?_eq_some.mp h with ⟨hl, _⟩
    exact hl
  constructor
  · unfold addVariationImage
    rw [h]
    exact List.getElem?_set_eq_of_lt _ hlt
  · simp [List.length_eq_zero]

/-- Witness for C10: adding a front image to a variation with no images
marks it primary. -/
theorem addVariationImage_primary_iff_empty_witness :
    ([emptyVariation] : List Variation)[0]? = some emptyVariation ∧
    (addVariationImage [emptyVariation] 0 "front" "img_1")[0]? =
      some { emptyVariation with images := emptyVariation.images ++
        [{ id := "img_1", url := some "", alt_text := some "", angle := "front",
           is_primary := emptyVariation.images.length == 0 }] } ∧
    ((emptyVariation.images.length == 0) = true ↔ emptyVariation.images = []) :=
  ⟨rfl, addVariationImage_primary_iff_empty [emptyVariation] 0 "front" "img_1"
    emptyVariation rfl⟩

/-- Both branches of onSubmit keep the cleaned variations array. -/
theorem submitCleanedValues_variations (values : FormValues) :
    (submitCleanedValues values).variations = cleanVariations values.variations := by
  unfold submitCleanedValues
  cases values.hasVariations <;> rfl

/-- Every image surviving the submission filter has a nonempty,
non-whitespace url. -/
theorem cleanVariations_urls (vs : List Variation) :
    ∀ v ∈ cleanVariations vs, ∀ img ∈ v.images,
      ∃ u, img.url = some u ∧ u ≠ "" ∧ jsTrim u ≠ "" := by
  intro v hv img himg
  unfold cleanVariations at hv
  rcases List.mem_map.mp hv with ⟨v0, _, rfl⟩
  have hk : keepImage img = true := (List.mem_filter.mp himg).2
  unfold keepImage at hk
  cases hu : img.url with
  | none => rw [hu] at hk; cases hk
  | some u =>
    rw [hu] at hk
    simp only [Bool.and_eq_true, bne_iff_ne, ne_eq] at hk
    exact ⟨u, rfl, hk.1, hk.2⟩

/-- For the single-product shape, the submitted angles array is the ordered
concatenation of the five angle names gated by field truthiness. -/
theorem submitCleanedValues_angles (values : FormValues)
    (h : values.hasVariations = false) :
    (submitCleanedValues values).angles =
      (if jsTruthyStr values.frontImage then ["front"] else []) ++
      (if jsTruthyStr values.backImage then ["back"] else []) ++
      (if jsTruthyStr values.leftImage then ["left"] else []) ++
      (if jsTruthyStr values.rightImage then ["right"] else []) ++
      (if jsTruthyStr values.materialImage then ["material"] else []) := by
  cases hv : values.hasVariations with
  | true => rw [hv] at h; cases h
  | false =>
    unfold submitCleanedValues
    rw [hv]
    rfl

/-- The ordered truthiness-gated concatenation equals a filter of the
canonical angle list. -/
theorem angles_concat_eq_filter (values : FormValues) :
    ((if jsTruthyStr values.frontImage then ["front"] else []) ++
     (if jsTruthyStr values.backImage then ["back"] else []) ++
     (if jsTruthyStr values.leftImage then ["left"] else []) ++
     (if jsTruthyStr values.rightImage then ["right"] else []) ++
     (if jsTruthyStr values.materialImage then ["material"] else [])) =
    (["front", "back", "left", "right", "material"].filter
      (fun a => jsTruthyStr (angleField values a))) := by
  have hf : angleField values "front" = values.frontImage := by simp [angleField]
  have hb : angleField values "back" = values.backImage := by simp [angleField]
  have hl : angleField values "left" = values.leftImage := by simp [angleField]
  have hr : angleField values "right" = values.rightImage := by simp [angleField]
  have hm : angleField values "material" = values.materialImage := by simp [angleField]
  simp only [List.filter_cons, List.filter_nil, hf, hb, hl, hr, hm]
  cases jsTruthyStr values.frontImage <;>
    cases jsTruthyStr values.backImage <;>
      cases jsTruthyStr values.leftImage <;>
        cases jsTruthyStr values.rightImage <;>
          cases jsTruthyStr values.materialImage <;> simp

/-- C8: on submission every variation image without a usable url is removed,
and for the single-product shape the submitted angles array holds exactly
the angle names (front, back, left, right, material, in that order) whose
angle-image field is non-empty. -/
theorem submission_cleans_images_and_derives_angles (values : FormValues)
    (h : values.hasVariations = false) :
    (∀ v ∈ (submitCleanedValues values).variations, ∀ img ∈ v.images,
       ∃ u, img.url = some u ∧ u ≠ "" ∧ jsTrim u ≠ "") ∧
    (submitCleanedValues values).angles =
      (["front", "back", "left", "right", "material"].filter
        (fun a => jsTruthyStr (angleField values a))) := by
  constructor
  · rw [submitCleanedValues_variations]
    exact cleanVariations_urls values.variations
  · rw [submitCleanedValues_angles values h]
    exact angles_concat_eq_filter values

/-- Witness for C8: the Mug form with only frontImage set submits
angles = [front]. -/
theorem submission_cleans_images_witness :
    mugForm.hasVariations = false ∧ (submitCleanedValues mugForm).angles = ["front"] :=
  ⟨rfl, ((submission_cleans_images_and_derives_angles mugForm rfl).2).trans (by decide)⟩

/-- C5 counterexample: a response whose data property is a non-list is NOT
coerced to an empty list — the fulfilled payload is the whole malformed
object, and the reducer stores it into items verbatim. -/
theorem fetchProducts_no_coercion_counterexample :
    fetchProductsPayload malformedResp = .ok malformedResp ∧
    (fetchProductsFulfilled initialProductsState malformedResp).items = malformedResp ∧
    malformedResp ≠ .jarr [] :=
  ⟨rfl, rfl, fun h => Json.noConfusion h⟩

/-- C5 amended: when the response's data property is missing or not a truthy
array, the legacy fetchProducts thunk returns the whole response unchanged,
and the fulfilled reducer writes that payload into items as-is (the
malformed shape is propagated, not replaced by an empty list). -/
theorem fetchProducts_propagates_nonlist (result : Json) (d : Option Json)
    (hd : getProp result "data" = .ok d)
    (hna : ∀ dv, d = some dv → (truthy dv && isArrayJson dv) = false) :
    fetchProductsPayload result = .ok result ∧
    ∀ s, (fetchProductsFulfilled s result).items = result := by
  constructor
  · unfold fetchProductsPayload
    rw [hd]
    cases d with
    | none => rfl
    | some dv =>
      have hneg : ¬((truthy dv && isArrayJson dv) = true) := by
        intro hc
        have h2 := hna dv rfl
        rw [hc] at h2
        exact absurd h2 (by decide)
      show (if (truthy dv && isArrayJson dv) = true then (pure dv : Except Unit Json)
            else pure result) = .ok result
      rw [if_neg hneg]
      rfl
  · intro s
    rfl

/-- Witness for C5's amended statement at a response with no data property. -/
theorem fetchProducts_propagates_nonlist_witness :
    getProp (Json.jstr "plain") "data" = .ok none ∧
    fetchProductsPayload (Json.jstr "plain") = .ok (Json.jstr "plain") ∧
    ∀ s, (fetchProductsFulfilled s (Json.jstr "plain")).items = Json.jstr "plain" :=
  ⟨rfl,
   (fetchProducts_propagates_nonlist (Json.jstr "plain") none rfl
     (fun _ h => Option.noConfusion h)).1,
   (fetchProducts_propagates_nonlist (Json.jstr "plain") none rfl
     (fun _ h => Option.noConfusion h)).2⟩

/-- C6 counterexample: getProductById on an id that does not parse as an
ObjectId rejects (the ObjectId constructor throws) instead of resolving
with null. -/
theorem getProductById_invalid_id_counterexample :
    getProductById [] "not-a-valid-id" = .error .invalidObjectId ∧
    getProductById [] "not-a-valid-id" ≠ .ok none := by
  have h : getProductById [] "not-a-valid-id" = .error .invalidObjectId := by decide
  exact ⟨h, fun hcontra => by rw [h] at hcontra; exact Except.noConfusion hcontra⟩

/-- C6 amended: getProductById resolves with null when the id is a valid
ObjectId string matched by no stored record, but rejects (throws) when the
id does not parse as a valid identifier. -/
theorem getProductById_notFound_behavior (store : List ProductDocument) (id : String) :
    (isValidObjectId id = false → getProductById store id = .error .invalidObjectId) ∧
    (isValidObjectId id = true → (∀ d ∈ store, d.oid ≠ id) →
       getProductById store id = .ok none) := by
  constructor
  · intro hiv
    unfold getProductById
    simp [hiv]
  · intro hv hnone
    unfold getProductById
    rw [hv]
    have : store.find? (fun d => d.oid == id) = none :=
      List.find?_eq_none.mpr (fun d hd => by simp [hnone d hd])
    simp [this]

/-- Witness for C6's amended statement: a valid unmatched id resolves to
null on the empty store. -/
theorem getProductById_notFound_behavior_witness :
    isValidObjectId oid0 = true ∧ getProductById [] oid0 = .ok none :=
  ⟨by decide,
   (getProductById_notFound_behavior [] oid0).2 (by decide) (fun d hd => absurd hd (by simp))⟩

/-- C4 counterexample: the product fetched by getProductById right after
createProduct is NOT field-identical to the one createProduct returned: the
fetched record carries createdAt/updatedAt from the stored document, while
createProduct's return value has them undefined. -/
theorem create_getById_not_identical :
    getProductById (createProduct [] oid0 0 sampleInput).1
        (createProduct [] oid0 0 sampleInput).2.id ≠
      .ok (some (createProduct [] oid0 0 sampleInput).2) := by
  intro h
  have h1 : getProductById (createProduct [] oid0 0 sampleInput).1
      (createProduct [] oid0 0 sampleInput).2.id =
      .ok (some (normalizeDoc
        { toProductInput := sampleInput, oid := oid0, createdAt := 0, updatedAt := 0 })) := by
    decide
  rw [h1] at h
  have h2 := Except.ok.inj h
  have h3 := Option.some.inj h2
  have h4 := congrArg Product.createdAt h3
  simp [normalizeDoc, createProduct] at h4

/-- C4 amended: a product created via createProduct and fetched via
getProductById with the returned id agrees with createProduct's return
value on every field except createdAt and updatedAt, which are undefined in
the created value but carry the stored timestamps in the fetched one;
absent optional fields are undefined (none) on both sides. -/
theorem create_getById_roundtrip (store : List ProductDocument) (insertedId : String)
    (now : Nat) (productData : ProductInput)
    (hvalid : isValidObjectId insertedId = true)
    (hfresh : ∀ d ∈ store, d.oid ≠ insertedId) :
    getProductById (createProduct store insertedId now productData).1
        (createProduct store insertedId now productData).2.id =
      .ok (some { (createProduct store insertedId now productData).2 with
                    createdAt := some now, updatedAt := some now }) := by
  unfold createProduct getProductById
  rw [hvalid]
  rw [List.find?_append]
  have hnone : store.find? (fun d => d.oid == insertedId) = none :=
    List.find?_eq_none.mpr (fun d hd => by simp [hfresh d hd])
  rw [hnone]
  simp [normalizeDoc]

/-- Witness for C4's amended statement on the empty store with the Mug input. -/
theorem create_getById_roundtrip_witness :
    isValidObjectId oid0 = true ∧
    getProductById (createProduct [] oid0 0 sampleInput).1
        (createProduct [] oid0 0 sampleInput).2.id =
      .ok (some { (createProduct [] oid0 0 sampleInput).2 with
                    createdAt := some 0, updatedAt := some 0 }) :=
  ⟨by decide,
   create_getById_roundtrip [] oid0 0 sampleInput (by decide) (fun d hd => absurd hd (by simp))⟩

/-- The source's Math.ceil(total/limit) formula agrees with ceiling division. -/
theorem ceilOfDiv_eq_ceilDiv (a b : Nat) : ceilOfDiv a b = a ⌈/⌉ b :=
  (Nat.ceilDiv_eq_add_pred_div a b).symm

theorem le_ceilOfDiv_mul (a b : Nat) (hb : 1 ≤ b) : a ≤ ceilOfDiv a b * b := by
  rw [ceilOfDiv_eq_ceilDiv]
  have h : a ≤ b • (a ⌈/⌉ b) := le_smul_ceilDiv hb
  rwa [smul_eq_mul, Nat.mul_comm b] at h

theorem ceilOfDiv_le_of_le_mul (a b m : Nat) (hb : 1 ≤ b) (h : a ≤ m * b) :
    ceilOfDiv a b ≤ m := by
  rw [ceilOfDiv_eq_ceilDiv]
  exact (ceilDiv_le_iff_le_smul hb).mpr (by rwa [smul_eq_mul, Nat.mul_comm b])

/-- C1: for a valid page and limit, the engine's pagination metadata has
totalPages equal to ceiling division of total by limit (stated both through
Mathlib's ceiling division and through its least-upper-bound
characterization), hasNext = (page < totalPages), hasPrev = (page > 1), and
the returned data is the sorted matched set with exactly (page-1)*limit
documents skipped and at most limit taken. -/
theorem paginated_metadata_correct (docs : List ProductDocument) (page limit : Nat)
    (search categoryId : String) (probe : ProbeResult)
    (_hp : 1 ≤ page) (hl : 1 ≤ limit) (_hlmax : limit ≤ 1000) :
    ((getProductsPaginated docs page limit search categoryId probe).pagination.totalPages =
       (getProductsPaginated docs page limit search categoryId probe).pagination.total ⌈/⌉ limit) ∧
    ((getProductsPaginated docs page limit search categoryId probe).pagination.total ≤
       (getProductsPaginated docs page limit search categoryId probe).pagination.totalPages * limit) ∧
    (∀ m : Nat,
       (getProductsPaginated docs page limit search categoryId probe).pagination.total ≤ m * limit →
       (getProductsPaginated docs page limit search categoryId probe).pagination.totalPages ≤ m) ∧
    ((getProductsPaginated docs page limit search categoryId probe).pagination.hasNext =
       decide (page <
         (getProductsPaginated docs page limit search categoryId probe).pagination.totalPages)) ∧
    ((getProductsPaginated docs page limit search categoryId probe).pagination.hasPrev =
       decide (page > 1)) ∧
    ((getProductsPaginated docs page limit search categoryId probe).data =
       (((sortByCreatedAtDesc (docs.filter (docMatches
             (buildMatchConditions search categoryId probe)))).drop
           ((page - 1) * limit)).take limit).map normalizeDoc) := by
  refine ⟨?_, ?_, ?_, rfl, rfl, rfl⟩
  · exact ceilOfDiv_eq_ceilDiv _ _
  · exact le_ceilOfDiv_mul _ _ hl
  · intro m hm
    exact ceilOfDiv_le_of_le_mul _ _ _ hl hm

/-- Witness for C1 at the spec scenario: page 2, limit 10 over a 25-document
matched set, with the totals evaluated concretely. -/
theorem paginated_metadata_correct_witness :
    (1 ≤ 2 ∧ 1 ≤ 10 ∧ 10 ≤ 1000) ∧
    ((getProductsPaginated docs25 2 10 "" "" ProbeResult.failure).pagination.totalPages =
       (getProductsPaginated docs25 2 10 "" "" ProbeResult.failure).pagination.total ⌈/⌉ 10) ∧
    ((getProductsPaginated docs25 2 10 "" "" ProbeResult.failure).data =
       (((sortByCreatedAtDesc (docs25.filter (docMatches
             (buildMatchConditions "" "" ProbeResult.failure)))).drop
           ((2 - 1) * 10)).take 10).map normalizeDoc) ∧
    (getProductsPaginated docs25 2 10 "" "" ProbeResult.failure).pagination.total = 25 ∧
    (getProductsPaginated docs25 2 10 "" "" ProbeResult.failure).pagination.totalPages = 3 ∧
    (getProductsPaginated docs25 2 10 "" "" ProbeResult.failure).pagination.hasNext = true ∧
    (getProductsPaginated docs25 2 10 "" "" ProbeResult.failure).pagination.hasPrev = true ∧
    (getProductsPaginated docs25 2 10 "" "" ProbeResult.failure).data.length = 10 :=
  ⟨⟨by decide, by decide, by decide⟩,
   (paginated_metadata_correct docs25 2 10 "" "" ProbeResult.failure
     (by decide) (by decide) (by decide)).1,
   (paginated_metadata_correct docs25 2 10 "" "" ProbeResult.failure
     (by decide) (by decide) (by decide)).2.2.2.2.2,
   by decide, by decide, by decide, by decide, by decide⟩

/-- C3: with a nonempty search term, a probe that throws builds the same
match conditions as a probe that reports the index absent — the regex
fallback with no $text clause — and the whole paginated request runs
normally instead of failing; moreover a term occurring as a word of the
description is matched both by the text-index condition and by the regex
fallback condition. -/
theorem search_fallback_equivalence (docs : List ProductDocument) (page limit : Nat)
    (search categoryId : String) (d : ProductDocument) (ds : String)
    (hs : jsTrim search ≠ "") :
    (buildMatchConditions search categoryId .failure =
       buildMatchConditions search categoryId (.success false) ∧
     (buildMatchConditions search categoryId .failure).textSearch = none ∧
     (buildMatchConditions search categoryId .failure).regexOr = some search ∧
     getProductsPaginated docs page limit search categoryId .failure =
       getProductsPaginated docs page limit search categoryId (.success false)) ∧
    (d.description = some ds → textWordMatch search ds = true →
       docTextMatch search d = true ∧ docRegexOrMatch search d = true) := by
  have hne : search ≠ "" := fun h => hs (by rw [h]; rfl)
  have hcondP : (search != "" && jsTrim search != "") = true := by
    rw [Bool.and_eq_true, bne_iff_ne, bne_iff_ne]
    exact ⟨hne, hs⟩
  have hmc : buildMatchConditions search categoryId .failure =
      buildMatchConditions search categoryId (.success false) := by
    unfold buildMatchConditions
    simp [hcondP]
  have htext : (buildMatchConditions search categoryId .failure).textSearch = none := by
    unfold buildMatchConditions
    simp [hcondP]
  have hregex : (buildMatchConditions search categoryId .failure).regexOr = some search := by
    unfold buildMatchConditions
    simp [hcondP]
  refine ⟨⟨hmc, htext, hregex, ?_⟩, ?_⟩
  · unfold getProductsPaginated
    rw [hmc]
  · intro hd ht
    constructor
    · unfold docTextMatch
      rw [hd]
      simp [ht]
    · unfold docRegexOrMatch
      rw [hd]
      simp [regexMatchCI_of_textWordMatch ht]

/-- Witness for C3 with the term ceramic, present only in the description. -/
theorem search_fallback_equivalence_witness :
    jsTrim "ceramic" ≠ "" ∧
    buildMatchConditions "ceramic" "all" .failure =
      buildMatchConditions "ceramic" "all" (.success false) ∧
    getProductsPaginated [searchDoc] 1 10 "ceramic" "all" .failure =
      getProductsPaginated [searchDoc] 1 10 "ceramic" "all" (.success false) ∧
    docTextMatch "ceramic" searchDoc = true ∧
    docRegexOrMatch "ceramic" searchDoc = true := by
  have h1 := (search_fallback_equivalence [searchDoc] 1 10 "ceramic" "all" searchDoc
    "nice ceramic cup" (by decide)).1
  have h2 := (search_fallback_equivalence [searchDoc] 1 10 "ceramic" "all" searchDoc
    "nice ceramic cup" (by decide)).2 rfl (by decide)
  exact ⟨by decide, h1.1, h1.2.2.2, h2.1, h2.2⟩

end Mrmerch
